import Mathlib

/-!
Shallow embedding of the orphanage-creation form in `src/api/src/server.ts`
(the React component `OrphanagesMap` with its Yup `dataSchema`, attachment
handlers `handleSelectImages` / `handleRemoveImage`, the `resetAlerts`
helper and the `handleSubmit` pipeline).

Coordinates are modelled as rationals (the claims only distinguish zero
from non-zero, where JS number truthiness coincides with `≠ 0`).  Binary
files are modelled as a display name plus an opaque byte list.  Validation
error paths are strings, exactly as Yup reports them and as the
`switch (e.path)` in `handleSubmit` consumes them.
-/

set_option autoImplicit false

namespace Hope

/-- A picked binary file: display `name` plus its payload bytes
(mirrors the `File` objects stored in the `images` state). -/
structure FileRec where
  name : String
  content : List Nat
deriving DecidableEq, Repr

/-- Mirrors the source interface PreviewImage: a display name and a
preview url. -/
structure PreviewImage where
  name : String
  url : String
deriving DecidableEq, Repr

/-- The `location` object assembled inside `handleSubmit`. -/
structure Location where
  latitude : ℚ
  longitude : ℚ
deriving DecidableEq

/-- The draft payload validated by `dataSchema.validate(payload)`. -/
structure Draft where
  name : String
  description : String
  location : Location
  images : List FileRec
  opening_hours : String
deriving DecidableEq

/-- A Yup validation error: a `path` (field tag) and a `message`,
as collected in `error.inner` with `abortEarly: false`. -/
structure ValidationError where
  path : String
  message : String
deriving DecidableEq, Repr

/-- The name rule: required, so it fails exactly on the empty string. -/
def nameRule (name : String) : List ValidationError :=
  if name = "" then [⟨"name", "Campo obrigatório"⟩] else []

/-- The description rule: the max(300) cap plus required. -/
def descriptionRule (description : String) : List ValidationError :=
  (if 300 < description.length then
    [⟨"description", "Descrição muito longa, informe até 300 caracteres"⟩]
  else []) ++
  (if description = "" then [⟨"description", "Campo obrigatório"⟩] else [])

/-- The custom `validator-location` test: fails when
`(!latitude || latitude === 0) || (!longitude || longitude === 0)`;
on numbers, falsiness is exactly equality with zero. -/
def locationRule (location : Location) : List ValidationError :=
  if location.latitude = 0 ∨ location.longitude = 0 then
    [⟨"location", "Informe a localizaçao no mapa"⟩]
  else []

/-- The images rule: the max(5) cap plus the custom test failing when
the list length is at most zero. -/
def imagesRule (images : List FileRec) : List ValidationError :=
  (if 5 < images.length then [⟨"images", "Adicione até 5 fotos"⟩] else []) ++
  (if images.length ≤ 0 then [⟨"images", "Envie pelo menos uma foto"⟩] else [])

/-- The opening-hours rule: required, failing on the empty string. -/
def openingHoursRule (opening_hours : String) : List ValidationError :=
  if opening_hours = "" then [⟨"opening_hours", "Campo obrigatório"⟩] else []

/-- Validation of the whole draft with abortEarly false: every field
rule runs and all failures are collected. -/
def validate (d : Draft) : List ValidationError :=
  nameRule d.name ++ descriptionRule d.description ++ locationRule d.location ++
    imagesRule d.images ++ openingHoursRule d.opening_hours

/-- The component state touched by the submission pipeline: the map-click
selection `selectedPosition` (initially `[0, 0]`), the scalar input fields,
and the attachment gallery (`images` with its `previewImages`). -/
structure FormState where
  selectedPosition : ℚ × ℚ
  name : String
  description : String
  opening_hours : String
  open_on_weekends : Bool
  images : List FileRec
  previewImages : List PreviewImage
deriving DecidableEq

/-- The file-pick handler `handleSelectImages`: when the picked file list is non-null, the picked
set replaces both `images` and `previewImages` wholesale; `mkUrl` stands for
`URL.createObjectURL`. -/
def handleSelectImages (mkUrl : FileRec → String) (files : Option (List FileRec))
    (st : FormState) : FormState :=
  match files with
  | none => st
  | some fs =>
    let selectedImages := fs
    { st with
      images := selectedImages
      previewImages := selectedImages.map (fun image => ⟨image.name, mkUrl image⟩) }

/-- The removal handler `handleRemoveImage`: filters `previewImages` by
`img.url !== image.url` and `images` by `img.name !== image.name`
(each list first passed through the identity `.map`). -/
def handleRemoveImage (image : PreviewImage) (st : FormState) : FormState :=
  { st with
    previewImages :=
      (st.previewImages.map (fun i => i)).filter (fun img => img.url ≠ image.url)
    images :=
      (st.images.map (fun i => i)).filter (fun img => img.name ≠ image.name) }

/-- The five per-field alert slots. -/
structure Alerts where
  alertName : String
  alertDescription : String
  alertPosition : String
  alertImages : String
  alertOh : String
deriving DecidableEq, Repr

/-- Resets the alerts: every slot set to the empty string. -/
def resetAlerts : Alerts :=
  { alertName := "", alertDescription := "", alertPosition := ""
    alertImages := "", alertOh := "" }

/-- The `switch (e.path)` in the catch branch of `handleSubmit`: one error
is routed into the slot matching its field tag; any other tag falls through
the switch and changes nothing. -/
def applyAlert (a : Alerts) (e : ValidationError) : Alerts :=
  if e.path = "name" then { a with alertName := e.message }
  else if e.path = "description" then { a with alertDescription := e.message }
  else if e.path = "location" then { a with alertPosition := e.message }
  else if e.path = "images" then { a with alertImages := e.message }
  else if e.path = "opening_hours" then { a with alertOh := e.message }
  else a

/-- The draft snapshot assembled at the top of `handleSubmit`: the scalar
fields and gallery as-is, the location from `selectedPosition` with the JS
conditional `p ? p : 0` made explicit. -/
def draftOf (st : FormState) : Draft :=
  { name := st.name
    description := st.description
    location :=
      { latitude := if st.selectedPosition.1 = 0 then 0 else st.selectedPosition.1
        longitude := if st.selectedPosition.2 = 0 then 0 else st.selectedPosition.2 }
    images := st.images
    opening_hours := st.opening_hours }

/-- One part of the multipart `FormData` body: a text field or a binary file. -/
inductive FormPart where
  | text (s : String)
  | file (f : FileRec)
deriving DecidableEq, Repr

/-- The persisted device-level cache: `localStorage` entries
`hope:latitude` and `hope:longitude` (`getItem` returns a string or null). -/
structure DeviceCache where
  latitude : Option String
  longitude : Option String
deriving DecidableEq

/-- Models reading one key with String(localStorage.getItem(k)) in JS,
whose stringification turns a null read
into the four-character text `"null"`. -/
def stringOfGetItem : Option String → String
  | none => "null"
  | some s => s

/-- The `FormData` built after validation succeeds: six appended text
fields, then one `images` part per gallery entry, in order. -/
def buildFormData (st : FormState) (cache : DeviceCache) : List (String × FormPart) :=
  [("name", FormPart.text st.name),
   ("description", FormPart.text st.description),
   ("latitude", FormPart.text (stringOfGetItem cache.latitude)),
   ("longitude", FormPart.text (stringOfGetItem cache.longitude)),
   ("opening_hours", FormPart.text st.opening_hours),
   ("open_on_weekends", FormPart.text (if st.open_on_weekends then "true" else "false"))] ++
  st.images.map (fun image => ("images", FormPart.file image))

/-- A SweetAlert modal: `title`, body (`text` or `html`), `icon`. -/
structure Modal where
  title : String
  body : String
  icon : String
deriving DecidableEq, Repr

/-- Outcome of the `api.post` call: 2xx, or a rejection whose response body
carries the numeric business code `bcode`. -/
inductive NetworkResult where
  | ok
  | err (bcode : Int)
deriving DecidableEq

/-- The `.catch` branch of the post: `bcode === 1001` shows the
duplicate-name warning interpolating the submitted name, anything else the
generic error modal. -/
def failureModal (name : String) (bcode : Int) : Modal :=
  if bcode = 1001 then
    { title := "Oops!"
      body := "Já existe um cadastro com o nome: </br><i>" ++ name ++ "</i>"
      icon := "warning" }
  else
    { title := "Oops!"
      body := "Ocorreu um erro desconhecido.</br>Veja o console do navegador :("
      icon := "error" }

/-- The `.then` branch of the post. -/
def successModal : Modal :=
  { title := "Uhull!", body := "Orfanato cadastrado com sucesso.", icon := "success" }

/-- Observable result of one submit trigger: the alert slots after the
attempt, the multipart request sent (`none` when no network call is made),
and the modal shown (`none` when validation stopped the submission). -/
structure SubmitResult where
  alerts : Alerts
  request : Option (List (String × FormPart))
  modal : Option Modal
deriving DecidableEq

/-- The submit handler `handleSubmit`: clear the five slots, snapshot and validate the draft;
on any validation error route each error to its slot and stop; otherwise
build the `FormData` (geolocation read from the device cache), post it once,
and show the outcome modal. -/
def handleSubmit (st : FormState) (cache : DeviceCache) (net : NetworkResult) :
    SubmitResult :=
  let cleared := resetAlerts
  let errors := validate (draftOf st)
  if errors = [] then
    { alerts := cleared
      request := some (buildFormData st cache)
      modal := some (match net with
        | NetworkResult.ok => successModal
        | NetworkResult.err bcode => failureModal st.name bcode) }
  else
    { alerts := errors.foldl applyAlert cleared, request := none, modal := none }

/-- A draft form state that satisfies every field rule. -/
def validState : FormState :=
  { selectedPosition := (10, 10)
    name := "Lar Esperança"
    description := "Um lar para todos"
    opening_hours := "Das 8h às 18h"
    open_on_weekends := true
    images := [⟨"foto1.png", [1, 2]⟩]
    previewImages := [⟨"foto1.png", "blob:u1"⟩] }

/-- The valid state with the name field cleared, so validation fails. -/
def invalidState : FormState :=
  { validState with name := "" }

/-- A device cache with both geolocation keys present. -/
def someCache : DeviceCache :=
  ⟨some "-23.55", some "-46.63"⟩

lemma mem_nameRule (n : String) (e : ValidationError) :
    e ∈ nameRule n ↔ n = "" ∧ e = ⟨"name", "Campo obrigatório"⟩ := by
  unfold nameRule; split <;> simp_all

lemma mem_descriptionRule (s : String) (e : ValidationError) :
    e ∈ descriptionRule s ↔
      (300 < s.length ∧
        e = ⟨"description", "Descrição muito longa, informe até 300 caracteres"⟩) ∨
      (s = "" ∧ e = ⟨"description", "Campo obrigatório"⟩) := by
  unfold descriptionRule
  split <;> split <;> simp_all

lemma mem_locationRule (loc : Location) (e : ValidationError) :
    e ∈ locationRule loc ↔
      ((loc.latitude = 0 ∨ loc.longitude = 0) ∧
        e = ⟨"location", "Informe a localizaçao no mapa"⟩) := by
  unfold locationRule; split <;> simp_all

lemma mem_imagesRule (l : List FileRec) (e : ValidationError) :
    e ∈ imagesRule l ↔
      (5 < l.length ∧ e = ⟨"images", "Adicione até 5 fotos"⟩) ∨
      (l.length ≤ 0 ∧ e = ⟨"images", "Envie pelo menos uma foto"⟩) := by
  unfold imagesRule; split <;> split <;> simp_all

lemma mem_openingHoursRule (s : String) (e : ValidationError) :
    e ∈ openingHoursRule s ↔ s = "" ∧ e = ⟨"opening_hours", "Campo obrigatório"⟩ := by
  unfold openingHoursRule; split <;> simp_all

lemma mem_validate (d : Draft) (e : ValidationError) :
    e ∈ validate d ↔
      e ∈ nameRule d.name ∨ e ∈ descriptionRule d.description ∨
      e ∈ locationRule d.location ∨ e ∈ imagesRule d.images ∨
      e ∈ openingHoursRule d.opening_hours := by
  simp [validate, List.mem_append, or_assoc]

/-- C1: `validate` runs all five field rules unconditionally and reports an
error tagged with a field exactly when that field fails its rule — missing
name, missing or over-long description, a zero coordinate, an empty (or
over-capped) attachment list, missing opening hours — every reported error
carries one of the five tags, and a draft satisfying every rule validates
to the empty error list. -/
theorem C1_validate_exactness (d : Draft) :
    ((∃ e ∈ validate d, e.path = "name") ↔ d.name = "") ∧
    ((∃ e ∈ validate d, e.path = "description") ↔
      (d.description = "" ∨ 300 < d.description.length)) ∧
    ((∃ e ∈ validate d, e.path = "location") ↔
      (d.location.latitude = 0 ∨ d.location.longitude = 0)) ∧
    ((∃ e ∈ validate d, e.path = "images") ↔
      (d.images = [] ∨ 5 < d.images.length)) ∧
    ((∃ e ∈ validate d, e.path = "opening_hours") ↔ d.opening_hours = "") ∧
    (∀ e ∈ validate d, e.path = "name" ∨ e.path = "description" ∨ e.path = "location" ∨
      e.path = "images" ∨ e.path = "opening_hours") ∧
    (d.name ≠ "" → d.description ≠ "" → d.description.length ≤ 300 →
      d.location.latitude ≠ 0 → d.location.longitude ≠ 0 →
      d.images ≠ [] → d.images.length ≤ 5 → d.opening_hours ≠ "" → validate d = []) := by
  refine ⟨?_, ?_, ?_, ?_, ?_, ?_, ?_⟩
  · constructor
    · rintro ⟨e, h, hp⟩
      rw [mem_validate] at h
      simp only [mem_nameRule, mem_descriptionRule, mem_locationRule, mem_imagesRule,
        mem_openingHoursRule] at h
      rcases h with ⟨h, rfl⟩ | (⟨h, rfl⟩ | ⟨h, rfl⟩) | ⟨h, rfl⟩ | (⟨h, rfl⟩ | ⟨h, rfl⟩) |
        ⟨h, rfl⟩ <;> simp_all
    · intro h
      refine ⟨⟨"name", "Campo obrigatório"⟩, ?_, rfl⟩
      rw [mem_validate, mem_nameRule]
      exact Or.inl ⟨h, rfl⟩
  · constructor
    · rintro ⟨e, h, hp⟩
      rw [mem_validate] at h
      simp only [mem_nameRule, mem_descriptionRule, mem_locationRule, mem_imagesRule,
        mem_openingHoursRule] at h
      rcases h with ⟨h, rfl⟩ | (⟨h, rfl⟩ | ⟨h, rfl⟩) | ⟨h, rfl⟩ | (⟨h, rfl⟩ | ⟨h, rfl⟩) |
        ⟨h, rfl⟩ <;> simp_all
    · rintro (h | h)
      · refine ⟨⟨"description", "Campo obrigatório"⟩, ?_, rfl⟩
        rw [mem_validate, mem_descriptionRule]
        exact Or.inr (Or.inl (Or.inr ⟨h, rfl⟩))
      · refine ⟨⟨"description", "Descrição muito longa, informe até 300 caracteres"⟩, ?_, rfl⟩
        rw [mem_validate, mem_descriptionRule]
        exact Or.inr (Or.inl (Or.inl ⟨h, rfl⟩))
  · constructor
    · rintro ⟨e, h, hp⟩
      rw [mem_validate] at h
      simp only [mem_nameRule, mem_descriptionRule, mem_locationRule, mem_imagesRule,
        mem_openingHoursRule] at h
      rcases h with ⟨h, rfl⟩ | (⟨h, rfl⟩ | ⟨h, rfl⟩) | ⟨h, rfl⟩ | (⟨h, rfl⟩ | ⟨h, rfl⟩) |
        ⟨h, rfl⟩ <;> simp_all
    · intro h
      refine ⟨⟨"location", "Informe a localizaçao no mapa"⟩, ?_, rfl⟩
      rw [mem_validate, mem_locationRule]
      exact Or.inr (Or.inr (Or.inl ⟨h, rfl⟩))
  · constructor
    · rintro ⟨e, h, hp⟩
      rw [mem_validate] at h
      simp only [mem_nameRule, mem_descriptionRule, mem_locationRule, mem_imagesRule,
        mem_openingHoursRule] at h
      rcases h with ⟨h, rfl⟩ | (⟨h, rfl⟩ | ⟨h, rfl⟩) | ⟨h, rfl⟩ | (⟨h, rfl⟩ | ⟨h, rfl⟩) |
        ⟨h, rfl⟩ <;> simp_all
    · rintro (h | h)
      · refine ⟨⟨"images", "Envie pelo menos uma foto"⟩, ?_, rfl⟩
        rw [mem_validate, mem_imagesRule]
        exact Or.inr (Or.inr (Or.inr (Or.inl (Or.inr ⟨by simp [h], rfl⟩))))
      · refine ⟨⟨"images", "Adicione até 5 fotos"⟩, ?_, rfl⟩
        rw [mem_validate, mem_imagesRule]
        exact Or.inr (Or.inr (Or.inr (Or.inl (Or.inl ⟨h, rfl⟩))))
  · constructor
    · rintro ⟨e, h, hp⟩
      rw [mem_validate] at h
      simp only [mem_nameRule, mem_descriptionRule, mem_locationRule, mem_imagesRule,
        mem_openingHoursRule] at h
      rcases h with ⟨h, rfl⟩ | (⟨h, rfl⟩ | ⟨h, rfl⟩) | ⟨h, rfl⟩ | (⟨h, rfl⟩ | ⟨h, rfl⟩) |
        ⟨h, rfl⟩ <;> simp_all
    · intro h
      refine ⟨⟨"opening_hours", "Campo obrigatório"⟩, ?_, rfl⟩
      rw [mem_validate, mem_openingHoursRule]
      exact Or.inr (Or.inr (Or.inr (Or.inr ⟨h, rfl⟩)))
  · intro e h
    rw [mem_validate] at h
    simp only [mem_nameRule, mem_descriptionRule, mem_locationRule, mem_imagesRule,
      mem_openingHoursRule] at h
    rcases h with ⟨h, rfl⟩ | (⟨h, rfl⟩ | ⟨h, rfl⟩) | ⟨h, rfl⟩ | (⟨h, rfl⟩ | ⟨h, rfl⟩) |
      ⟨h, rfl⟩ <;> simp
  · intro h1 h2 h3 h4 h5 h6 h7 h8
    have h6l : ¬ d.images.length ≤ 0 := by
      simp only [Nat.le_zero, List.length_eq_zero]
      exact h6
    simp [validate, nameRule, descriptionRule, locationRule, imagesRule, openingHoursRule,
      h1, h2, h4, h5, h8, h6l, Nat.not_lt.mpr h3, Nat.not_lt.mpr h7]

/-- C1 witness: the fully valid concrete draft satisfies every hypothesis of
the final conjunct of `C1_validate_exactness` and validates to `[]`. -/
theorem C1_validate_exactness_witness :
    (draftOf validState).name ≠ "" ∧ validate (draftOf validState) = [] :=
  ⟨by decide, (C1_validate_exactness (draftOf validState)).2.2.2.2.2.2 (by decide) (by decide)
    (by decide) (by decide) (by decide) (by decide) (by decide) (by decide)⟩

/-- The content a slot ends up with after routing a list of errors into
cleared slots: the message of the last error carrying the tag of the slot, or
the empty string when no error carries it. -/
def slotContent (tag : String) (errs : List ValidationError) : String :=
  ((errs.filter (fun e => e.path = tag)).map (fun e => e.message)).getLastD ""

lemma applyAlert_proj_name (a : Alerts) (e : ValidationError) :
    (applyAlert a e).alertName = if e.path = "name" then e.message else a.alertName := by
  unfold applyAlert; split_ifs <;> simp_all

lemma applyAlert_proj_description (a : Alerts) (e : ValidationError) :
    (applyAlert a e).alertDescription =
      if e.path = "description" then e.message else a.alertDescription := by
  unfold applyAlert; split_ifs <;> simp_all

lemma applyAlert_proj_position (a : Alerts) (e : ValidationError) :
    (applyAlert a e).alertPosition =
      if e.path = "location" then e.message else a.alertPosition := by
  unfold applyAlert; split_ifs <;> simp_all

lemma applyAlert_proj_images (a : Alerts) (e : ValidationError) :
    (applyAlert a e).alertImages =
      if e.path = "images" then e.message else a.alertImages := by
  unfold applyAlert; split_ifs <;> simp_all

lemma applyAlert_proj_oh (a : Alerts) (e : ValidationError) :
    (applyAlert a e).alertOh =
      if e.path = "opening_hours" then e.message else a.alertOh := by
  unfold applyAlert; split_ifs <;> simp_all

lemma foldl_applyAlert_slot (proj : Alerts → String) (tag : String)
    (hp : ∀ a e, proj (applyAlert a e) = if e.path = tag then e.message else proj a)
    (errs : List ValidationError) :
    ∀ a : Alerts, proj (errs.foldl applyAlert a) =
      ((errs.filter (fun e => e.path = tag)).map (fun e => e.message)).getLastD (proj a) := by
  induction errs with
  | nil => intro a; rfl
  | cons e es ih =>
    intro a
    rw [List.foldl_cons, ih, hp]
    simp only [List.filter_cons, decide_eq_true_eq]
    by_cases h : e.path = tag
    · rw [if_pos h, if_pos h, List.map_cons, List.getLastD_cons]
    · rw [if_neg h, if_neg h]

/-- C2: every submit trigger first clears all five error slots, and each
slot then holds exactly the message of the validation error tagged with its
field (the empty string when that field passed); when validation reports
any error, the submission stops with no network request and no modal. -/
theorem C2_submit_routes_errors (st : FormState) (cache : DeviceCache) (net : NetworkResult) :
    (validate (draftOf st) ≠ [] →
      (handleSubmit st cache net).request = none ∧ (handleSubmit st cache net).modal = none) ∧
    (handleSubmit st cache net).alerts.alertName =
      slotContent "name" (validate (draftOf st)) ∧
    (handleSubmit st cache net).alerts.alertDescription =
      slotContent "description" (validate (draftOf st)) ∧
    (handleSubmit st cache net).alerts.alertPosition =
      slotContent "location" (validate (draftOf st)) ∧
    (handleSubmit st cache net).alerts.alertImages =
      slotContent "images" (validate (draftOf st)) ∧
    (handleSubmit st cache net).alerts.alertOh =
      slotContent "opening_hours" (validate (draftOf st)) := by
  by_cases h : validate (draftOf st) = []
  · simp [handleSubmit, h, slotContent, resetAlerts]
  · have hreq : (handleSubmit st cache net).request = none := by simp [handleSubmit, h]
    have hmod : (handleSubmit st cache net).modal = none := by simp [handleSubmit, h]
    have halerts : (handleSubmit st cache net).alerts =
        (validate (draftOf st)).foldl applyAlert resetAlerts := by simp [handleSubmit, h]
    refine ⟨fun _ => ⟨hreq, hmod⟩, ?_, ?_, ?_, ?_, ?_⟩ <;> rw [halerts]
    · exact foldl_applyAlert_slot (fun a => a.alertName) "name" applyAlert_proj_name
        (validate (draftOf st)) resetAlerts
    · exact foldl_applyAlert_slot (fun a => a.alertDescription) "description"
        applyAlert_proj_description (validate (draftOf st)) resetAlerts
    · exact foldl_applyAlert_slot (fun a => a.alertPosition) "location"
        applyAlert_proj_position (validate (draftOf st)) resetAlerts
    · exact foldl_applyAlert_slot (fun a => a.alertImages) "images"
        applyAlert_proj_images (validate (draftOf st)) resetAlerts
    · exact foldl_applyAlert_slot (fun a => a.alertOh) "opening_hours"
        applyAlert_proj_oh (validate (draftOf st)) resetAlerts

/-- C2 witness: on the concrete draft with an empty name, validation fails,
and the submit attempt makes no network request and shows no modal. -/
theorem C2_submit_routes_errors_witness :
    validate (draftOf invalidState) ≠ [] ∧
    (handleSubmit invalidState someCache NetworkResult.ok).request = none ∧
    (handleSubmit invalidState someCache NetworkResult.ok).modal = none :=
  ⟨by decide,
    (C2_submit_routes_errors invalidState someCache NetworkResult.ok).1 (by decide)⟩

/-- C3: for a draft that passes validation, the transfer payload holds the
scalar text fields as-is, the weekend boolean as its textual form, every
attachment in order as a binary part under the single shared key `images`,
and the two geolocation values read from the persisted device cache — the
request is unchanged when the in-memory map selection that was validated is
replaced by any other selection that also validates. -/
theorem C3_payload_from_cache (st : FormState) (cache : DeviceCache) (net : NetworkResult)
    (h : validate (draftOf st) = []) :
    (handleSubmit st cache net).request =
      some ([("name", FormPart.text st.name),
             ("description", FormPart.text st.description),
             ("latitude", FormPart.text (stringOfGetItem cache.latitude)),
             ("longitude", FormPart.text (stringOfGetItem cache.longitude)),
             ("opening_hours", FormPart.text st.opening_hours),
             ("open_on_weekends",
               FormPart.text (if st.open_on_weekends then "true" else "false"))] ++
            st.images.map (fun image => ("images", FormPart.file image))) ∧
    (∀ p : ℚ × ℚ, validate (draftOf { st with selectedPosition := p }) = [] →
      (handleSubmit { st with selectedPosition := p } cache net).request =
        (handleSubmit st cache net).request) := by
  constructor
  · simp [handleSubmit, h, buildFormData]
  · intro p hp
    simp [handleSubmit, h, hp, buildFormData]

/-- C3 witness: the concrete valid draft validates and its request is the
expected multipart list built from the device cache. -/
theorem C3_payload_from_cache_witness :
    validate (draftOf validState) = [] ∧
    (handleSubmit validState someCache NetworkResult.ok).request =
      some ([("name", FormPart.text validState.name),
             ("description", FormPart.text validState.description),
             ("latitude", FormPart.text (stringOfGetItem someCache.latitude)),
             ("longitude", FormPart.text (stringOfGetItem someCache.longitude)),
             ("opening_hours", FormPart.text validState.opening_hours),
             ("open_on_weekends",
               FormPart.text (if validState.open_on_weekends then "true" else "false"))] ++
            validState.images.map (fun image => ("images", FormPart.file image))) :=
  ⟨by decide,
    (C3_payload_from_cache validState someCache NetworkResult.ok (by decide)).1⟩

/-- C4: when the network rejects a validated submission, the modal shown is
decided solely by the numeric business code in the response body — 1001
yields the duplicate-name warning interpolating the submitted name, any
other code the generic error modal — and the five alert slots stay cleared
in both cases. -/
theorem C4_failure_by_bcode (st : FormState) (cache : DeviceCache) (b : Int)
    (h : validate (draftOf st) = []) :
    (handleSubmit st cache (NetworkResult.err b)).modal =
      some (if b = 1001 then
        { title := "Oops!"
          body := "Já existe um cadastro com o nome: </br><i>" ++ st.name ++ "</i>"
          icon := "warning" }
      else
        { title := "Oops!"
          body := "Ocorreu um erro desconhecido.</br>Veja o console do navegador :("
          icon := "error" }) ∧
    (handleSubmit st cache (NetworkResult.err b)).alerts = resetAlerts := by
  constructor
  · simp [handleSubmit, h, failureModal]
  · simp [handleSubmit, h]

/-- C4 witness: the concrete valid draft rejected with business code 1001
shows the duplicate-name warning and leaves the slots cleared. -/
theorem C4_failure_by_bcode_witness :
    validate (draftOf validState) = [] ∧
    ((handleSubmit validState someCache (NetworkResult.err 1001)).modal =
      some (if (1001 : Int) = 1001 then
        { title := "Oops!"
          body := "Já existe um cadastro com o nome: </br><i>" ++ validState.name ++ "</i>"
          icon := "warning" }
      else
        { title := "Oops!"
          body := "Ocorreu um erro desconhecido.</br>Veja o console do navegador :("
          icon := "error" }) ∧
    (handleSubmit validState someCache (NetworkResult.err 1001)).alerts = resetAlerts) :=
  ⟨by decide, C4_failure_by_bcode validState someCache 1001 (by decide)⟩

/-- C10: when the device cache holds neither geolocation key, a validated
draft is still submitted, and the transmitted latitude and longitude fields
each carry the literal four-character text value obtained by stringifying
the null cache read. -/
theorem C10_null_cache_submits_null_text (st : FormState) (net : NetworkResult)
    (h : validate (draftOf st) = []) :
    ∃ l, (handleSubmit st ⟨none, none⟩ net).request = some l ∧
      ("latitude", FormPart.text "null") ∈ l ∧
      ("longitude", FormPart.text "null") ∈ l ∧
      (∀ p, ("latitude", p) ∈ l → p = FormPart.text "null") ∧
      (∀ p, ("longitude", p) ∈ l → p = FormPart.text "null") ∧
      ("null" : String).length = 4 := by
  refine ⟨buildFormData st ⟨none, none⟩, by simp [handleSubmit, h], ?_, ?_, ?_, ?_, rfl⟩
  · simp [buildFormData, stringOfGetItem]
  · simp [buildFormData, stringOfGetItem]
  · intro p hp
    simp [buildFormData, stringOfGetItem] at hp
    exact hp
  · intro p hp
    simp [buildFormData, stringOfGetItem] at hp
    exact hp

/-- C10 witness: the concrete valid draft submitted with an empty device
cache produces a request whose latitude and longitude parts are the text
value of length four. -/
theorem C10_null_cache_submits_null_text_witness :
    validate (draftOf validState) = [] ∧
    (∃ l, (handleSubmit validState ⟨none, none⟩ NetworkResult.ok).request = some l ∧
      ("latitude", FormPart.text "null") ∈ l ∧
      ("longitude", FormPart.text "null") ∈ l ∧
      (∀ p, ("latitude", p) ∈ l → p = FormPart.text "null") ∧
      (∀ p, ("longitude", p) ∈ l → p = FormPart.text "null") ∧
      ("null" : String).length = 4) :=
  ⟨by decide, C10_null_cache_submits_null_text validState NetworkResult.ok (by decide)⟩

lemma filter_key_ne_of_not_mem {α β : Type} [DecidableEq β] (key : α → β) (k : β)
    (l : List α) (hl : k ∉ l.map key) : l.filter (fun x => key x ≠ k) = l := by
  apply List.filter_eq_self.mpr
  intro x hx
  simp only [ne_eq, decide_eq_true_eq]
  intro hk
  exact hl (hk ▸ List.mem_map_of_mem key hx)

lemma length_filter_key_ne {α β : Type} [DecidableEq β] (key : α → β) (k : β) :
    ∀ l : List α, (l.map key).Nodup →
      (l.filter (fun x => key x ≠ k)).length =
        if k ∈ l.map key then l.length - 1 else l.length := by
  intro l
  induction l with
  | nil => intro _; simp
  | cons x xs ih =>
    intro h
    rw [List.map_cons, List.nodup_cons] at h
    obtain ⟨hx, hxs⟩ := h
    rw [List.filter_cons]
    by_cases hk : key x = k
    · have hmem : k ∉ xs.map key := hk ▸ hx
      rw [if_neg (by simp [hk]), filter_key_ne_of_not_mem key k xs hmem,
        List.map_cons, if_pos (by simp [hk])]
      simp
    · rw [if_pos (by simp [hk]), List.length_cons, ih hxs, List.map_cons]
      by_cases hmem : k ∈ xs.map key
      · have hpos : 0 < xs.length := by
          have hp0 := List.length_pos_of_mem hmem
          rwa [List.length_map] at hp0
        rw [if_pos hmem, if_pos (List.mem_cons_of_mem _ hmem)]
        simp only [List.length_cons]
        omega
      · rw [if_neg hmem, if_neg (by simp [hmem]; intro hkk; exact hk hkk.symm)]
        simp

/-- A gallery reachable only outside the single-pick UI path: two files
sharing one display name, each with its own preview reference. -/
def dupNameState : FormState :=
  { selectedPosition := (0, 0)
    name := ""
    description := ""
    opening_hours := ""
    open_on_weekends := true
    images := [⟨"a.png", [0]⟩, ⟨"a.png", [1]⟩]
    previewImages := [⟨"a.png", "blob:u1"⟩, ⟨"a.png", "blob:u2"⟩] }

/-- C5 counterexample: with two gallery entries sharing one display name,
removing an attachment that is present (by preview reference in the preview
list and by display name in the binary list) shortens the binary list by
two, not by exactly one. -/
theorem C5_remove_counterexample :
    (⟨"a.png", "blob:u1"⟩ : PreviewImage) ∈ dupNameState.previewImages ∧
    (⟨"a.png", "blob:u1"⟩ : PreviewImage).name ∈ dupNameState.images.map (fun f => f.name) ∧
    ¬ ((handleRemoveImage ⟨"a.png", "blob:u1"⟩ dupNameState).images.length =
        dupNameState.images.length - 1) := by decide

/-- C5 (amended): `handleRemoveImage` filters the preview list by preview
reference and the binary list by display name; when the preview references
are pairwise distinct and the display names are pairwise distinct, each
list shrinks by exactly one entry when the key of the removed attachment is
present in it and is left unchanged when it is absent. -/
theorem C5_remove_one_when_keys_distinct (a : PreviewImage) (st : FormState)
    (hprev : (st.previewImages.map (fun p => p.url)).Nodup)
    (himg : (st.images.map (fun f => f.name)).Nodup) :
    ((handleRemoveImage a st).previewImages.length =
      if a.url ∈ st.previewImages.map (fun p => p.url)
      then st.previewImages.length - 1 else st.previewImages.length) ∧
    ((handleRemoveImage a st).images.length =
      if a.name ∈ st.images.map (fun f => f.name)
      then st.images.length - 1 else st.images.length) ∧
    (a.url ∉ st.previewImages.map (fun p => p.url) →
      (handleRemoveImage a st).previewImages = st.previewImages) ∧
    (a.name ∉ st.images.map (fun f => f.name) →
      (handleRemoveImage a st).images = st.images) := by
  have hmapP : st.previewImages.map (fun i => i) = st.previewImages := by simp
  have hmapI : st.images.map (fun i => i) = st.images := by simp
  refine ⟨?_, ?_, ?_, ?_⟩
  · show ((st.previewImages.map (fun i => i)).filter (fun img => img.url ≠ a.url)).length = _
    rw [hmapP]
    exact length_filter_key_ne (fun p => p.url) a.url st.previewImages hprev
  · show ((st.images.map (fun i => i)).filter (fun img => img.name ≠ a.name)).length = _
    rw [hmapI]
    exact length_filter_key_ne (fun f => f.name) a.name st.images himg
  · intro h
    show (st.previewImages.map (fun i => i)).filter (fun img => img.url ≠ a.url) = _
    rw [hmapP]
    exact filter_key_ne_of_not_mem (fun p => p.url) a.url st.previewImages h
  · intro h
    show (st.images.map (fun i => i)).filter (fun img => img.name ≠ a.name) = _
    rw [hmapI]
    exact filter_key_ne_of_not_mem (fun f => f.name) a.name st.images h

/-- C5 witness: on the distinct-key concrete gallery, removing the present
attachment shortens both lists from one entry to zero. -/
theorem C5_remove_one_when_keys_distinct_witness :
    (validState.previewImages.map (fun p => p.url)).Nodup ∧
    (validState.images.map (fun f => f.name)).Nodup ∧
    (((handleRemoveImage ⟨"foto1.png", "blob:u1"⟩ validState).previewImages.length =
      if (⟨"foto1.png", "blob:u1"⟩ : PreviewImage).url ∈
          validState.previewImages.map (fun p => p.url)
      then validState.previewImages.length - 1 else validState.previewImages.length) ∧
    ((handleRemoveImage ⟨"foto1.png", "blob:u1"⟩ validState).images.length =
      if (⟨"foto1.png", "blob:u1"⟩ : PreviewImage).name ∈
          validState.images.map (fun f => f.name)
      then validState.images.length - 1 else validState.images.length) ∧
    ((⟨"foto1.png", "blob:u1"⟩ : PreviewImage).url ∉
        validState.previewImages.map (fun p => p.url) →
      (handleRemoveImage ⟨"foto1.png", "blob:u1"⟩ validState).previewImages =
        validState.previewImages) ∧
    ((⟨"foto1.png", "blob:u1"⟩ : PreviewImage).name ∉
        validState.images.map (fun f => f.name) →
      (handleRemoveImage ⟨"foto1.png", "blob:u1"⟩ validState).images = validState.images)) :=
  ⟨by decide, by decide,
    C5_remove_one_when_keys_distinct ⟨"foto1.png", "blob:u1"⟩ validState (by decide) (by decide)⟩

/-- C6: picking file set A and then file set B leaves the gallery equal to
exactly B, and the preview list equal to exactly the previews of B, in pick
order — each pick replaces the previous gallery instead of accumulating. -/
theorem C6_pick_replaces_gallery (mkUrl : FileRec → String) (A B : List FileRec)
    (st : FormState) :
    (handleSelectImages mkUrl (some B) (handleSelectImages mkUrl (some A) st)).images = B ∧
    (handleSelectImages mkUrl (some B) (handleSelectImages mkUrl (some A) st)).previewImages =
      B.map (fun image => (⟨image.name, mkUrl image⟩ : PreviewImage)) :=
  ⟨rfl, rfl⟩

/-- C7: the location rule passes exactly when both coordinates are
non-zero; the pairs (0, 5), (5, 0) and (0, 0) all fail it. -/
theorem C7_location_needs_both_nonzero (lat lng : ℚ) :
    (locationRule ⟨lat, lng⟩ = [] ↔ (lat ≠ 0 ∧ lng ≠ 0)) ∧
    locationRule ⟨0, 5⟩ ≠ [] ∧ locationRule ⟨5, 0⟩ ≠ [] ∧ locationRule ⟨0, 0⟩ ≠ [] := by
  refine ⟨?_, by decide, by decide, by decide⟩
  constructor
  · intro h
    by_cases h1 : lat = 0 ∨ lng = 0
    · rw [locationRule, if_pos h1] at h
      cases h
    · push_neg at h1
      exact h1
  · intro h
    rw [locationRule, if_neg (by push_neg; exact h)]

/-- C8: the attachments rule fails, always with an images-tagged error,
exactly when the list is empty or longer than five, so precisely the lists
of length one to five pass. -/
theorem C8_images_one_to_five (l : List FileRec) :
    (imagesRule l = [] ↔ (1 ≤ l.length ∧ l.length ≤ 5)) ∧
    (∀ e ∈ imagesRule l, e.path = "images") := by
  constructor
  · have hch : imagesRule l = [] ↔ (¬ 5 < l.length ∧ ¬ l.length ≤ 0) := by
      unfold imagesRule
      split <;> split <;> simp_all
    rw [hch]
    omega
  · intro e he
    rw [mem_imagesRule] at he
    rcases he with ⟨_, rfl⟩ | ⟨_, rfl⟩ <;> rfl

set_option maxRecDepth 8192 in
/-- C9: the description rule fails exactly when the string is empty or
longer than 300 characters; a description of exactly 300 characters
passes. -/
theorem C9_description_at_most_300 (s : String) :
    (descriptionRule s = [] ↔ (s ≠ "" ∧ s.length ≤ 300)) ∧
    descriptionRule (String.mk (List.replicate 300 'a')) = [] := by
  constructor
  · have hch : descriptionRule s = [] ↔ (¬ 300 < s.length ∧ ¬ s = "") := by
      unfold descriptionRule
      split <;> split <;> simp_all
    rw [hch]
    constructor
    · rintro ⟨h1, h2⟩
      exact ⟨h2, by omega⟩
    · rintro ⟨h1, h2⟩
      exact ⟨by omega, h1⟩
  · decide

end Hope
